import Mathlib

/-!
# Verification of `utilities/plot.py` (ICARUSNoiseAnalysis)

A shallow embedding of the four plotting helpers in `src/utilities/plot.py`:
`plot_tpc`, `plot_crate`, `plot_wire_planes`, `plot_waveform`.

The `fnal.Dataset` class is not part of this repository's sources; following
the specification it is modelled as "a table-like object supporting column
lookup by name (returning a sequence of one value per row) and boolean-mask
row selection".  Cell values are modelled by the inductive type `Value`
(Python ints, strings, and lists of strings, which are the value shapes the
four functions can encounter).  Failures of the underlying table / array /
plot operations are modelled by the `Except PyErr` monad, mirroring the
Python exception types (`KeyError`, `TypeError`, `IndexError`, `ValueError`,
`UnboundLocalError`).
-/

set_option autoImplicit false

namespace ICARUSNoise

universe u v w

/-- Python exception kinds that can arise in `utilities/plot.py`. -/
inductive PyErr where
  /-- `KeyError` from a missing column or dictionary key. -/
  | keyError (key : String)
  /-- `TypeError` from arithmetic on a non-numeric cell. -/
  | typeError
  /-- `IndexError` from an out-of-range Python list index such as `labels[di]`. -/
  | indexError
  /-- `ValueError` from a plotting call with mismatched array lengths. -/
  | valueError
  /-- `UnboundLocalError` from referencing a never-assigned local variable. -/
  | unboundLocal (var : String)
  deriving DecidableEq, Repr

/-- A table cell.  Modelled from the spec: columns hold "one value per row";
the values occurring in this module are integers, strings, and (through the
`component` argument of `plot_crate`) Python lists of strings. -/
inductive Value where
  | int (i : Int)
  | str (s : String)
  | strList (l : List String)
  deriving DecidableEq, Repr

/-- A column: one value per row. -/
abbrev Column := List Value

/-- Modelled from the spec: a `fnal.Dataset` (whose source is not in this
repository) is "a table-like object supporting column lookup by name" —
an association list from column names to columns. -/
structure Dataset where
  cols : List (String × Column)
  deriving DecidableEq, Repr

/-- `d[name]` — column lookup; a missing column raises `KeyError` (spec:
"Missing columns ... fail via the underlying table/plot library's default
exceptions"). -/
def getCol (d : Dataset) (name : String) : Except PyErr Column :=
  match d.cols.find? (fun p => p.1 == name) with
  | some p => .ok p.2
  | none => .error (.keyError name)

/-- Elementwise comparison `col == v` producing a boolean mask. -/
def eqMask (col : Column) (v : Value) : List Bool :=
  col.map (fun x => x == v)

/-- Elementwise conjunction of two boolean masks (`&` on boolean series). -/
def andMask (a b : List Bool) : List Bool :=
  List.zipWith (fun x y => x && y) a b

/-- Boolean-mask row selection `col[mask]`. -/
def applyMask {α : Type u} : List α → List Bool → List α
  | [], _ => []
  | _ :: _, [] => []
  | x :: xs, b :: bs => if b then x :: applyMask xs bs else applyMask xs bs

/-- Python list indexing `l[i]` (`IndexError` when out of range). -/
def pyIndex {α : Type u} (l : List α) (i : Nat) : Except PyErr α :=
  match l.get? i with
  | some x => .ok x
  | none => .error .indexError

/-- Monadic map over `Except`, used for the source's `for` loops: the first
failing iteration aborts the whole call with its exception. -/
def mapE {α : Type u} {β : Type v} (f : α → Except PyErr β) : List α → Except PyErr (List β)
  | [] => .ok []
  | x :: xs => (f x).bind fun y => (mapE f xs).map fun ys => y :: ys

/-- Whether an `Except` computation succeeded. -/
def exOk {ε : Type u} {α : Type v} : Except ε α → Bool
  | .ok _ => true
  | .error _ => false

/-- The observable effects of one call to a plotting function:
the final state of the (read-only) inputs, how many figure objects
`plt.figure` allocated during the call, the Python return value
(`none` models Python `None`; `some 0` would be the id of the single
figure allocated by the call), and the figure contents. -/
structure PlotEffects (σ : Type u) (φ : Type v) where
  stateAfter : σ
  figsAllocated : Nat
  ret : Option Nat
  fig : φ
  deriving DecidableEq, Repr

/-! ## `plot_crate` (lines 55–95) -/

/-- Extract a Python int from a cell; anything else raises `TypeError`
under arithmetic. -/
def valInt : Value → Except PyErr Int
  | .int i => .ok i
  | _ => .error .typeError

/-- Interpret a whole column as integers (as `64*column` arithmetic does). -/
def colInt (c : Column) : Except PyErr (List Int) :=
  mapE valInt c

/-- Line 87: `x = 64*d['board'][selected] + d['ch'][selected]`. -/
def crateX (board ch : Column) : Except PyErr (List Int) :=
  (colInt board).bind fun b =>
  (colInt ch).map fun c =>
  List.zipWith (fun x y => 64 * x + y) b c

/-- Lines 80–85: the comparison value `c` used for dataset number `di`.
The list branch is taken only when `component` is a Python list whose
length equals the number of datasets. -/
def componentFor (component : Value) (nds : Nat) (di : Nat) : Value :=
  match component with
  | .strList l => if l.length = nds then .str (l.getD di "") else .strList l
  | v => v

/-- Lines 80–85: the `title` local assigned on each loop iteration. -/
def crateTitle (component : Value) (nds : Nat) : Value :=
  match component with
  | .strList l => if l.length = nds then .str (String.intercalate " vs. " l) else .strList l
  | v => v

/-- Whether the `isinstance(component, list) and len(component) == len(datasets)`
branch of line 80 is taken. -/
def crateBranchTaken (component : Value) (nds : Nat) : Bool :=
  match component with
  | .strList l => l.length == nds
  | _ => false

/-- Line 95 reads the loop-local `title`: with zero datasets the loop body
never ran and the variable was never assigned, raising `UnboundLocalError`. -/
def crateTitleFinal (component : Value) (nds : Nat) : Except PyErr Value :=
  if nds = 0 then .error (.unboundLocal "title") else .ok (crateTitle component nds)

/-- Lines 86–88 for one dataset: `selected = d['flange'] == c`, then
`x = 64*d['board'][selected] + d['ch'][selected]`, then the scatter points
`(x, d[metric][selected])`. -/
def cratePoints (d : Dataset) (c : Value) (metric : String) : Except PyErr (List (Int × Value)) :=
  (getCol d "flange").bind fun fl =>
  let selected := eqMask fl c
  (getCol d "board").bind fun board =>
  (getCol d "ch").bind fun ch =>
  (crateX (applyMask board selected) (applyMask ch selected)).bind fun xs =>
  (getCol d metric).map fun m =>
  xs.zip (applyMask m selected)

/-- One iteration of the loop of line 79: the scatter series for dataset
number `di`, labelled `labels[di]`. -/
def crateEntry (labels : List String) (metric : String) (component : Value) (nds : Nat)
    (de : Nat × Dataset) : Except PyErr (String × List (Int × Value)) :=
  (cratePoints de.2 (componentFor component nds de.1) metric).bind fun pts =>
  (pyIndex labels de.1).map fun lab =>
  (lab, pts)

/-- The figure contents built by `plot_crate`. -/
structure CrateFig where
  series : List (String × List (Int × Value))
  title : Value
  deriving DecidableEq, Repr

/-- The body of `plot_crate` after the `plt.figure` call. -/
def crateCore (datasets : List Dataset) (labels : List String) (metric : String)
    (component : Value) : Except PyErr CrateFig :=
  (mapE (crateEntry labels metric component datasets.length) datasets.enum).bind fun entries =>
  (crateTitleFinal component datasets.length).map fun t =>
  { series := entries, title := t }

/-- `plot_crate(datasets, labels, metric, component)`: allocates one figure,
runs the loop of line 79, sets the suptitle, and returns `None`. -/
def plotCrateCall (datasets : List Dataset) (labels : List String) (metric : String)
    (component : Value) : Except PyErr (PlotEffects (List Dataset) CrateFig) :=
  (crateCore datasets labels metric component).map fun f =>
  { stateAfter := datasets, figsAllocated := 1, ret := none, fig := f }

/-- A well-typed crate dataset: string-valued `flange`, integer `board` and
`ch`, and an arbitrary metric column, presented as aligned row lists. -/
def mkCrateDataset (fl : List Value) (bs cs : List Int) (ms : Column) : Dataset :=
  ⟨[("flange", fl), ("board", bs.map Value.int), ("ch", cs.map Value.int), ("rawrms", ms)]⟩

/-! ## `plot_tpc` (lines 9–53) -/

/-- Line 31: `nchannels = [2304, 5760, 5760]`. -/
def nchannels : List Nat := [2304, 5760, 5760]

/-- Line 32: `ndivs = [288, 576, 576]`. -/
def ndivs : List Nat := [288, 576, 576]

/-- Line 39: `xlow = 13824*tpc + sum(nchannels[:pi])`. -/
def tpcXlow (tpc : Int) (pi : Nat) : Int :=
  13824 * tpc + ((nchannels.take pi).sum : Int)

/-- Line 40: `xhigh = xlow + nchannels[pi]`. -/
def tpcXhigh (tpc : Int) (pi : Nat) : Int :=
  tpcXlow tpc pi + (nchannels.getD pi 0 : Int)

/-- Line 36: `mask = ((d['tpc'] == tpc) & (d['plane'] == pi))`. -/
def tpcMask (d : Dataset) (tpc : Int) (pi : Nat) : Except PyErr (List Bool) :=
  (getCol d "tpc").bind fun t =>
  (getCol d "plane").map fun pl =>
  andMask (eqMask t (.int tpc)) (eqMask pl (.int pi))

/-- Line 38: the scatter points `(d['channel_id'][mask], d[metric][mask])`. -/
def tpcPoints (d : Dataset) (metric : String) (tpc : Int) (pi : Nat) :
    Except PyErr (List (Value × Value)) :=
  (tpcMask d tpc pi).bind fun mask =>
  (getCol d "channel_id").bind fun cid =>
  (getCol d metric).map fun m =>
  (applyMask cid mask).zip (applyMask m mask)

/-- Line 48: the histogram values `d[metric][mask]`. -/
def tpcHistVals (d : Dataset) (metric : String) (tpc : Int) (pi : Nat) :
    Except PyErr Column :=
  (tpcMask d tpc pi).bind fun mask =>
  (getCol d metric).map fun m =>
  applyMask m mask

/-- One iteration of the inner loop of line 35 for dataset number `di`:
the labelled scatter series and histogram values. -/
def tpcEntry (labels : List String) (metric : String) (tpc : Int) (pi : Nat)
    (de : Nat × Dataset) : Except PyErr (String × List (Value × Value) × Column) :=
  (tpcPoints de.2 metric tpc pi).bind fun pts =>
  (pyIndex labels de.1).bind fun lab =>
  (tpcHistVals de.2 metric tpc pi).map fun hv =>
  (lab, pts, hv)

/-- One row of the 3×8 grid: scatter series, histogram values, and the x-axis
range set by lines 39–41. -/
structure TpcPanel where
  plane : Nat
  entries : List (String × List (Value × Value) × Column)
  xlim : Int × Int
  deriving DecidableEq, Repr

/-- The body of the loops of lines 34–35 for wire plane number `pi`. -/
def plotTpcPlane (datasets : List Dataset) (labels : List String) (metric : String)
    (tpc : Int) (pi : Nat) : Except PyErr TpcPanel :=
  (mapE (tpcEntry labels metric tpc pi) datasets.enum).map fun entries =>
  { plane := pi, entries := entries, xlim := (tpcXlow tpc pi, tpcXhigh tpc pi) }

/-- The body of `plot_tpc` after the `plt.figure` call: the three wire-plane
rows, in order. -/
def tpcCore (datasets : List Dataset) (labels : List String) (metric : String)
    (tpc : Int) : Except PyErr (List TpcPanel) :=
  mapE (plotTpcPlane datasets labels metric tpc) [0, 1, 2]

/-- `plot_tpc(datasets, labels, metric, tpc)`: allocates one figure, fills the
subplot grid, and returns `None`. -/
def plotTpcCall (datasets : List Dataset) (labels : List String) (metric : String)
    (tpc : Int) : Except PyErr (PlotEffects (List Dataset) (List TpcPanel)) :=
  (tpcCore datasets labels metric tpc).map fun panels =>
  { stateAfter := datasets, figsAllocated := 1, ret := none, fig := panels }

/-- A well-typed TPC dataset: integer `tpc` and `plane` columns, arbitrary
`channel_id` and metric columns, presented as aligned row lists. -/
def mkTpcDataset (ts ps : List Int) (cids ms : Column) : Dataset :=
  ⟨[("tpc", ts.map Value.int), ("plane", ps.map Value.int),
    ("channel_id", cids), ("rawrms", ms)]⟩

/-! ## `plot_wire_planes` (lines 97–143) -/

/-- One row of the channel map `data.chmap` with the columns selected on line
127: a logical channel id and the two wire endpoints.  Modelled from the spec:
the channel map is a "table associating logical channel ids with physical wire
endpoint coordinates"; the coordinates are carried opaquely as cell values. -/
structure ChRow where
  channel_id : Int
  z0 : Value
  y0 : Value
  z1 : Value
  y1 : Value
  deriving DecidableEq, Repr

/-- Line 126: `data.chmap['channel_id'] // 13824` (Python floor division). -/
def tpcOfChannel (cid : Int) : Int :=
  Int.fdiv cid 13824

/-- Lines 126–127: the channel-map rows whose channel id floor-divided by
13824 equals the requested TPC. -/
def wiresFor (chmap : List ChRow) (tpc : Int) : List ChRow :=
  chmap.filter (fun r => tpcOfChannel r.channel_id == tpc)

/-- Line 128: `pd.DataFrame({'channel_id': ..., metric: ...}).loc[data['plane'] == p]` —
pair up the two columns row by row and keep the rows of wire plane `p`. -/
def tmpFrame (cids mvals planeCol : Column) (p : Int) : List (Value × Value) :=
  applyMask (cids.zip mvals) (eqMask planeCol (.int p))

/-- Line 129: `wires.merge(tmp, how='inner', on 'channel_id')` — for each
left row, in order, one output row per matching right row, in order. -/
def mergeWires (wires : List ChRow) (tmp : List (Value × Value)) :
    List (ChRow × Value × Value) :=
  wires.flatMap fun w =>
    (tmp.filter (fun t => t.1 == Value.int w.channel_id)).map fun t => (w, t)

/-- Line 131: each merged row becomes the drawn segment `[(z0, y0), (z1, y1)]`. -/
def planeSegments (merged : List (ChRow × Value × Value)) :
    List ((Value × Value) × (Value × Value)) :=
  merged.map fun r => ((r.1.z0, r.1.y0), (r.1.z1, r.1.y1))

/-- The input of `plot_wire_planes`: a dataset together with its channel map. -/
structure WireData where
  ds : Dataset
  chmap : List ChRow
  deriving DecidableEq, Repr

/-- Lines 126–132 for one wire plane `p`: the drawn line segments. -/
def wirePlaneFig (data : WireData) (metric : String) (tpc : Int) (p : Int) :
    Except PyErr (List ((Value × Value) × (Value × Value))) :=
  (getCol data.ds "channel_id").bind fun cids =>
  (getCol data.ds metric).bind fun mvals =>
  (getCol data.ds "plane").map fun planeCol =>
  planeSegments (mergeWires (wiresFor data.chmap tpc) (tmpFrame cids mvals planeCol p))

/-- Line 142: `tpc_name = {0: 'EE', 1: 'EW', 2: 'WE', 3: 'WW'}[tpc]`
(`KeyError` outside 0–3). -/
def tpcName (tpc : Int) : Except PyErr String :=
  if tpc = 0 then .ok "EE"
  else if tpc = 1 then .ok "EW"
  else if tpc = 2 then .ok "WE"
  else if tpc = 3 then .ok "WW"
  else .error (.keyError (toString tpc))

/-- The characters before the first occurrence of the two-character
separator used on line 143. -/
def takeUntilBracket : List Char → List Char
  | [] => []
  | ' ' :: '[' :: _ => []
  | c :: rest => c :: takeUntilBracket rest

/-- Line 143: `metric_label.split(" [")[0]` — the prefix of the label before
the first occurrence of the separator. -/
def labelHead (metricLabel : String) : String :=
  String.mk (takeUntilBracket metricLabel.data)

/-- The figure contents built by `plot_wire_planes`. -/
structure WireFig where
  panels : List (List ((Value × Value) × (Value × Value)))
  title : String
  deriving DecidableEq, Repr

/-- The body of `plot_wire_planes` after the `plt.figure` call. -/
def wireCore (data : WireData) (metric : String) (metricLabel : String) (tpc : Int) :
    Except PyErr WireFig :=
  (mapE (wirePlaneFig data metric tpc) [0, 1, 2]).bind fun panels =>
  (tpcName tpc).map fun tn =>
  { panels := panels, title := labelHead metricLabel ++ " by Plane for " ++ tn }

/-- `plot_wire_planes(data, metric, metric_label, tpc)`: allocates one figure,
draws the three per-plane line collections, and returns `None`. -/
def plotWirePlanesCall (data : WireData) (metric : String) (metricLabel : String)
    (tpc : Int) : Except PyErr (PlotEffects WireData WireFig) :=
  (wireCore data metric metricLabel tpc).map fun f =>
  { stateAfter := data, figsAllocated := 1, ret := none, fig := f }

/-! ## `plot_waveform` (lines 154–177) -/

/-- The figure contents built by `plot_waveform`. -/
structure WaveFig where
  points : List (Nat × Value)
  title : String
  deriving DecidableEq, Repr

/-- Line 172: `ax.plot(np.arange(4096), waveform, ...)` — a line plot of the
4096 samples; mismatched lengths raise `ValueError`. -/
def waveCore (waveform : Column) (title : String) : Except PyErr WaveFig :=
  if waveform.length = 4096 then
    .ok { points := (List.range 4096).zip waveform, title := title }
  else
    .error .valueError

/-- `plot_waveform(waveform, title)`: allocates one figure, plots the trace,
and returns `None`. -/
def plotWaveformCall (waveform : Column) (title : String) :
    Except PyErr (PlotEffects Column WaveFig) :=
  (waveCore waveform title).map fun f =>
  { stateAfter := waveform, figsAllocated := 1, ret := none, fig := f }

/-- Whether an exception is one of the underlying table / list / array /
plot primitives' own exceptions (as opposed to an error the plotting
function manufactures itself, such as referencing an unassigned local). -/
def primErr : PyErr → Bool
  | .unboundLocal _ => false
  | _ => true

/-! ## Helper lemmas -/

theorem applyMask_nil {α : Type u} (m : List Bool) : applyMask ([] : List α) m = [] := by
  cases m <;> rfl

theorem applyMask_map {α : Type u} {β : Type v} (f : α → β) :
    ∀ (l : List α) (m : List Bool), applyMask (l.map f) m = (applyMask l m).map f := by
  intro l
  induction l with
  | nil => intro m; rw [List.map_nil, applyMask_nil, applyMask_nil, List.map_nil]
  | cons x xs ih =>
      intro m
      cases m with
      | nil => rfl
      | cons b bs => cases b <;> simp [applyMask, ih]

theorem colInt_map_int : ∀ l : List Int, colInt (l.map Value.int) = .ok l := by
  intro l
  induction l with
  | nil => rfl
  | cons x xs ih => simp [colInt, mapE, valInt, Except.bind] at ih ⊢; simp [ih, Except.map]

theorem value_int_beq (a b : Int) : (Value.int a == Value.int b) = (a == b) := by
  by_cases h : a = b
  · simp [h]
  · simp [h]

theorem eqMask_int_map (l : List Int) (t : Int) :
    eqMask (l.map Value.int) (Value.int t) = l.map (fun x => x == t) := by
  induction l with
  | nil => rfl
  | cons x xs ih => simp [eqMask, value_int_beq] at ih ⊢

theorem eqMask_cons (x : Value) (xs : Column) (v : Value) :
    eqMask (x :: xs) v = (x == v) :: eqMask xs v := rfl

theorem applyMask_cons_true {α : Type u} (x : α) (xs : List α) (bs : List Bool) :
    applyMask (x :: xs) (true :: bs) = x :: applyMask xs bs := rfl

theorem applyMask_cons_false {α : Type u} (x : α) (xs : List α) (bs : List Bool) :
    applyMask (x :: xs) (false :: bs) = applyMask xs bs := rfl

theorem andMask_cons (a : Bool) (as : List Bool) (b : Bool) (bs : List Bool) :
    andMask (a :: as) (b :: bs) = (a && b) :: andMask as bs := rfl

/-- Masking three aligned columns with the `flange == c` mask and forming
`(64*board + ch, metric)` pairs is the rowwise filter-and-map. -/
theorem crate_masked_rows (c : Value) :
    ∀ (fl : List Value) (bs cs : List Int) (ms : Column),
      bs.length = fl.length → cs.length = fl.length → ms.length = fl.length →
      (List.zipWith (fun x y => 64 * x + y) (applyMask bs (eqMask fl c))
          (applyMask cs (eqMask fl c))).zip (applyMask ms (eqMask fl c)) =
        ((fl.zip (bs.zip (cs.zip ms))).filter (fun r => r.1 == c)).map
          (fun r => (64 * r.2.1 + r.2.2.1, r.2.2.2)) := by
  intro fl
  induction fl with
  | nil =>
      intro bs cs ms h1 h2 h3
      simp at h1 h2 h3
      subst h1; subst h2; subst h3; rfl
  | cons f fl ih =>
      intro bs cs ms h1 h2 h3
      cases bs with
      | nil => simp at h1
      | cons b bs =>
        cases cs with
        | nil => simp at h2
        | cons cv cs =>
          cases ms with
          | nil => simp at h3
          | cons m ms =>
            simp only [List.length_cons] at h1 h2 h3
            have IH := ih bs cs ms (by omega) (by omega) (by omega)
            rw [eqMask_cons]
            cases hfc : (f == c) with
            | true =>
                rw [applyMask_cons_true, applyMask_cons_true, applyMask_cons_true,
                  List.zipWith_cons_cons, List.zip_cons_cons, List.zip_cons_cons,
                  List.zip_cons_cons, List.zip_cons_cons, List.filter_cons]
                simp only [hfc, if_true, List.map_cons, List.cons.injEq]
                exact ⟨trivial, IH⟩
            | false =>
                rw [applyMask_cons_false, applyMask_cons_false, applyMask_cons_false,
                  List.zip_cons_cons, List.zip_cons_cons, List.zip_cons_cons,
                  List.filter_cons]
                simp only [hfc, if_false, Bool.false_eq_true]
                exact IH

/-- Masking the `channel_id` and metric columns with the conjunction of the
`tpc == t` and `plane == p` masks is the rowwise filter-and-map. -/
theorem tpc_masked_rows (t p : Int) :
    ∀ (ts ps : List Int) (cids ms : Column),
      ps.length = ts.length → cids.length = ts.length → ms.length = ts.length →
      (applyMask cids (andMask (ts.map (fun x => x == t)) (ps.map (fun x => x == p)))).zip
          (applyMask ms (andMask (ts.map (fun x => x == t)) (ps.map (fun x => x == p)))) =
        ((ts.zip (ps.zip (cids.zip ms))).filter
            (fun r => r.1 == t && r.2.1 == p)).map (fun r => (r.2.2.1, r.2.2.2)) ∧
      applyMask ms (andMask (ts.map (fun x => x == t)) (ps.map (fun x => x == p))) =
        ((ts.zip (ps.zip (cids.zip ms))).filter
            (fun r => r.1 == t && r.2.1 == p)).map (fun r => r.2.2.2) := by
  intro ts
  induction ts with
  | nil =>
      intro ps cids ms h1 h2 h3
      simp at h1 h2 h3
      subst h1; subst h2; subst h3; exact ⟨rfl, rfl⟩
  | cons tv ts ih =>
      intro ps cids ms h1 h2 h3
      cases ps with
      | nil => simp at h1
      | cons pv ps =>
        cases cids with
        | nil => simp at h2
        | cons cid cids =>
          cases ms with
          | nil => simp at h3
          | cons m ms =>
            simp only [List.length_cons] at h1 h2 h3
            have IH := ih ps cids ms (by omega) (by omega) (by omega)
            rw [List.map_cons, List.map_cons, andMask_cons]
            cases htv : (tv == t) with
            | true =>
                cases hpv : (pv == p) with
                | true =>
                    simp only [Bool.and_self, applyMask_cons_true, List.zip_cons_cons,
                      List.filter_cons, htv, hpv, Bool.true_and, if_true, List.map_cons,
                      List.cons.injEq]
                    exact ⟨⟨trivial, IH.1⟩, trivial, IH.2⟩
                | false =>
                    simp only [Bool.and_false, applyMask_cons_false, List.zip_cons_cons,
                      List.filter_cons, htv, hpv, Bool.true_and, Bool.false_eq_true,
                      if_false]
                    exact IH
            | false =>
                cases hpv : (pv == p) with
                | true =>
                    simp only [Bool.false_and, applyMask_cons_false, List.zip_cons_cons,
                      List.filter_cons, htv, hpv, Bool.false_eq_true, if_false]
                    exact IH
                | false =>
                    simp only [Bool.and_self, applyMask_cons_false, List.zip_cons_cons,
                      List.filter_cons, htv, hpv, Bool.false_and, Bool.false_eq_true,
                      if_false]
                    exact IH

/-! ## Claim theorems -/

/-- C1: for every dataset passed to `plot_crate` and the component chosen for
it, the scatter series consists of exactly the rows whose `flange` value
equals that component, in order, and each such row is plotted at
x = 64*board + ch with the row's metric value as y. -/
theorem crate_scatter_x_and_selection (comp : Value) (nds di : Nat)
    (fl : List Value) (bs cs : List Int) (ms : Column)
    (h1 : bs.length = fl.length) (h2 : cs.length = fl.length)
    (h3 : ms.length = fl.length) :
    cratePoints (mkCrateDataset fl bs cs ms) (componentFor comp nds di) "rawrms" =
      .ok (((fl.zip (bs.zip (cs.zip ms))).filter
              (fun r => r.1 == componentFor comp nds di)).map
            (fun r => (64 * r.2.1 + r.2.2.1, r.2.2.2))) := by
  have h0 : cratePoints (mkCrateDataset fl bs cs ms) (componentFor comp nds di) "rawrms" =
      (crateX (applyMask (bs.map Value.int) (eqMask fl (componentFor comp nds di)))
          (applyMask (cs.map Value.int) (eqMask fl (componentFor comp nds di)))).bind
        (fun xs => (Except.ok ms : Except PyErr Column).map
          (fun m => xs.zip (applyMask m (eqMask fl (componentFor comp nds di))))) := rfl
  have hX : crateX (applyMask (bs.map Value.int) (eqMask fl (componentFor comp nds di)))
      (applyMask (cs.map Value.int) (eqMask fl (componentFor comp nds di))) =
      Except.ok (List.zipWith (fun x y => 64 * x + y)
        (applyMask bs (eqMask fl (componentFor comp nds di)))
        (applyMask cs (eqMask fl (componentFor comp nds di)))) := by
    rw [crateX, applyMask_map, applyMask_map, colInt_map_int, colInt_map_int]
    rfl
  rw [h0, hX]
  exact congrArg Except.ok (crate_masked_rows (componentFor comp nds di) fl bs cs ms h1 h2 h3)

theorem crate_scatter_x_and_selection_witness :
    (([2, 7] : List Int).length = [Value.str "WW19", Value.str "EE20"].length ∧
     ([5, 1] : List Int).length = [Value.str "WW19", Value.str "EE20"].length ∧
     ([Value.int 3, Value.int 4] : Column).length =
       [Value.str "WW19", Value.str "EE20"].length) ∧
    cratePoints
        (mkCrateDataset [Value.str "WW19", Value.str "EE20"] [2, 7] [5, 1]
          [Value.int 3, Value.int 4])
        (componentFor (Value.str "WW19") 1 0) "rawrms" =
      .ok ((([Value.str "WW19", Value.str "EE20"].zip
              (([2, 7] : List Int).zip ((([5, 1] : List Int)).zip
                ([Value.int 3, Value.int 4] : Column)))).filter
            (fun r => r.1 == componentFor (Value.str "WW19") 1 0)).map
          (fun r => (64 * r.2.1 + r.2.2.1, r.2.2.2))) :=
  ⟨⟨rfl, rfl, rfl⟩,
    crate_scatter_x_and_selection (Value.str "WW19") 1 0
      [Value.str "WW19", Value.str "EE20"] [2, 7] [5, 1]
      [Value.int 3, Value.int 4] rfl rfl rfl⟩

/-- C2: for every dataset passed to `plot_tpc`, the rows plotted on the
scatter (channel id, metric) and on the histogram (metric) of plane `p` are
exactly the rows whose `tpc` column equals `t` and whose `plane` column
equals `p`, and no others. -/
theorem tpc_selection_exact (ts ps : List Int) (cids ms : Column) (t : Int) (p : Nat)
    (h1 : ps.length = ts.length) (h2 : cids.length = ts.length)
    (h3 : ms.length = ts.length) :
    tpcPoints (mkTpcDataset ts ps cids ms) "rawrms" t p =
      .ok (((ts.zip (ps.zip (cids.zip ms))).filter
              (fun r => r.1 == t && r.2.1 == (p : Int))).map
            (fun r => (r.2.2.1, r.2.2.2))) ∧
    tpcHistVals (mkTpcDataset ts ps cids ms) "rawrms" t p =
      .ok (((ts.zip (ps.zip (cids.zip ms))).filter
              (fun r => r.1 == t && r.2.1 == (p : Int))).map
            (fun r => r.2.2.2)) := by
  have hmask : tpcMask (mkTpcDataset ts ps cids ms) t p =
      .ok (andMask (ts.map (fun x => x == t)) (ps.map (fun x => x == (p : Int)))) := by
    have : tpcMask (mkTpcDataset ts ps cids ms) t p =
        .ok (andMask (eqMask (ts.map Value.int) (.int t))
          (eqMask (ps.map Value.int) (.int p))) := rfl
    rw [this, eqMask_int_map, eqMask_int_map]
  have hrows := tpc_masked_rows t (p : Int) ts ps cids ms h1 h2 h3
  constructor
  · have h0 : tpcPoints (mkTpcDataset ts ps cids ms) "rawrms" t p =
        (tpcMask (mkTpcDataset ts ps cids ms) t p).bind fun mask =>
          Except.ok ((applyMask cids mask).zip (applyMask ms mask)) := rfl
    rw [h0, hmask]
    exact congrArg Except.ok hrows.1
  · have h0 : tpcHistVals (mkTpcDataset ts ps cids ms) "rawrms" t p =
        (tpcMask (mkTpcDataset ts ps cids ms) t p).bind fun mask =>
          Except.ok (applyMask ms mask) := rfl
    rw [h0, hmask]
    exact congrArg Except.ok hrows.2

theorem tpc_selection_exact_witness :
    (([0, 1] : List Int).length = ([0, 0] : List Int).length ∧
     ([Value.int 10, Value.int 11] : Column).length = ([0, 0] : List Int).length ∧
     ([Value.int 5, Value.int 6] : Column).length = ([0, 0] : List Int).length) ∧
    (tpcPoints (mkTpcDataset [0, 0] [0, 1] [Value.int 10, Value.int 11]
          [Value.int 5, Value.int 6]) "rawrms" 0 0 =
        .ok (((([0, 0] : List Int).zip (([0, 1] : List Int).zip
                (([Value.int 10, Value.int 11] : Column).zip
                  ([Value.int 5, Value.int 6] : Column)))).filter
                (fun r => r.1 == (0 : Int) && r.2.1 == ((0 : Nat) : Int))).map
              (fun r => (r.2.2.1, r.2.2.2))) ∧
     tpcHistVals (mkTpcDataset [0, 0] [0, 1] [Value.int 10, Value.int 11]
          [Value.int 5, Value.int 6]) "rawrms" 0 0 =
        .ok (((([0, 0] : List Int).zip (([0, 1] : List Int).zip
                (([Value.int 10, Value.int 11] : Column).zip
                  ([Value.int 5, Value.int 6] : Column)))).filter
                (fun r => r.1 == (0 : Int) && r.2.1 == ((0 : Nat) : Int))).map
              (fun r => r.2.2.2))) :=
  ⟨⟨rfl, rfl, rfl⟩,
    tpc_selection_exact [0, 0] [0, 1] [Value.int 10, Value.int 11]
      [Value.int 5, Value.int 6] 0 0 rfl rfl rfl⟩

/-- C5: in `plot_tpc` the x-axis range for plane `p` starts at
`13824*t + sum(nchannels[:p])`, i.e. at `13824*t`, `13824*t + 2304` and
`13824*t + 8064` for the three planes, and ends `nchannels[p]` later;
and the panel built by the embedding records exactly that range. -/
theorem tpc_xaxis_ranges (t : Int) :
    tpcXlow t 0 = 13824 * t ∧
    tpcXlow t 1 = 13824 * t + 2304 ∧
    tpcXlow t 2 = 13824 * t + 8064 ∧
    tpcXhigh t 0 = tpcXlow t 0 + 2304 ∧
    tpcXhigh t 1 = tpcXlow t 1 + 5760 ∧
    tpcXhigh t 2 = tpcXlow t 2 + 5760 ∧
    (∀ p : Nat, plotTpcPlane [] [] "rawrms" t p =
      .ok { plane := p, entries := [], xlim := (tpcXlow t p, tpcXhigh t p) }) := by
  refine ⟨by simp [tpcXlow, nchannels], by simp [tpcXlow, nchannels],
    by simp [tpcXlow, nchannels], by simp [tpcXhigh, nchannels],
    by simp [tpcXhigh, nchannels], by simp [tpcXhigh, nchannels], fun p => rfl⟩

/-- C9: the per-dataset branch of `plot_crate` (line 80) is taken exactly
when `component` is a list whose length equals the number of datasets; a
list of any other length is used whole as the comparison value for every
dataset and as the figure title. -/
theorem crate_component_list_branch (l : List String) (s : String) (nds di : Nat)
    (h : l.length ≠ nds) :
    crateBranchTaken (Value.strList l) nds = false ∧
    crateBranchTaken (Value.str s) nds = false ∧
    componentFor (Value.strList l) nds di = Value.strList l ∧
    crateTitle (Value.strList l) nds = Value.strList l ∧
    crateBranchTaken (Value.strList l) l.length = true ∧
    componentFor (Value.strList l) l.length di = Value.str (l.getD di "") := by
  refine ⟨by simp [crateBranchTaken, h], rfl, by simp [componentFor, h],
    by simp [crateTitle, h], by simp [crateBranchTaken], by simp [componentFor]⟩

theorem crate_component_list_branch_witness :
    (["WW19", "WW20", "EE19"].length ≠ 2) ∧
    (crateBranchTaken (Value.strList ["WW19", "WW20", "EE19"]) 2 = false ∧
     crateBranchTaken (Value.str "WW19") 2 = false ∧
     componentFor (Value.strList ["WW19", "WW20", "EE19"]) 2 0 =
       Value.strList ["WW19", "WW20", "EE19"] ∧
     crateTitle (Value.strList ["WW19", "WW20", "EE19"]) 2 =
       Value.strList ["WW19", "WW20", "EE19"] ∧
     crateBranchTaken (Value.strList ["WW19", "WW20", "EE19"])
       ["WW19", "WW20", "EE19"].length = true ∧
     componentFor (Value.strList ["WW19", "WW20", "EE19"])
       ["WW19", "WW20", "EE19"].length 0 = Value.str "WW19") :=
  ⟨by decide, crate_component_list_branch ["WW19", "WW20", "EE19"] "WW19" 2 0 (by decide)⟩

/-- C10: for a nonnegative channel id, the TPC-membership test
`channel_id // 13824 == tpc` of `plot_wire_planes` holds exactly when the
channel id lies in `[13824*t, 13824*(t+1))`, the same 13824-per-TPC offset
with which `plot_tpc` places its x-axis ranges (`tpcXlow t 0 = 13824*t`). -/
theorem channel_tpc_convention (cid t : Int) (h : 0 ≤ cid) :
    (tpcOfChannel cid = t ↔ tpcXlow t 0 ≤ cid ∧ cid < tpcXlow (t + 1) 0) := by
  have hc : 0 ≤ cid := h
  simp only [tpcOfChannel, tpcXlow, nchannels, List.take_zero, List.sum_nil,
    Nat.cast_zero, add_zero]
  rw [Int.fdiv_eq_ediv cid (by norm_num)]
  omega

theorem channel_tpc_convention_witness :
    ((0 : Int) ≤ 13830) ∧
    (tpcOfChannel 13830 = 1 ↔ tpcXlow 1 0 ≤ 13830 ∧ (13830 : Int) < tpcXlow (1 + 1) 0) :=
  ⟨by decide, channel_tpc_convention 13830 1 (by decide)⟩

/-- Membership in the inner join: a joined row with a given channel id exists
exactly when that id occurs in both operands. -/
theorem mergeWires_mem (wires : List ChRow) (tmp : List (Value × Value)) (cid : Int) :
    (∃ r ∈ mergeWires wires tmp, r.1.channel_id = cid) ↔
      ((∃ w ∈ wires, w.channel_id = cid) ∧ (∃ tr ∈ tmp, tr.1 = Value.int cid)) := by
  constructor
  · rintro ⟨r, hr, hcid⟩
    rw [mergeWires, List.mem_flatMap] at hr
    obtain ⟨w, hw, hr2⟩ := hr
    rw [List.mem_map] at hr2
    obtain ⟨tr, htr, rfl⟩ := hr2
    rw [List.mem_filter] at htr
    refine ⟨⟨w, hw, hcid⟩, ⟨tr, htr.1, ?_⟩⟩
    have h := eq_of_beq htr.2
    rw [h]
    exact congrArg Value.int hcid
  · rintro ⟨⟨w, hw, hwc⟩, ⟨tr, htr, htrc⟩⟩
    refine ⟨(w, tr), ?_, hwc⟩
    rw [mergeWires, List.mem_flatMap]
    refine ⟨w, hw, List.mem_map.mpr ⟨tr, List.mem_filter.mpr ⟨htr, ?_⟩, rfl⟩⟩
    rw [htrc, hwc]
    simp

/-- How many rows the pre-join plane filter keeps for a given key, when the
keys are duplicate-free. -/
theorem filter_fst_eq_length (v : Value) :
    ∀ tmp : List (Value × Value), (tmp.map Prod.fst).Nodup →
      (tmp.filter (fun tr => tr.1 == v)).length =
        if v ∈ tmp.map Prod.fst then 1 else 0 := by
  intro tmp
  induction tmp with
  | nil => intro h; simp
  | cons a rest ih =>
      intro h
      rw [List.map_cons, List.nodup_cons] at h
      rw [List.filter_cons]
      cases hav : (a.1 == v) with
      | true =>
          have hv : a.1 = v := eq_of_beq hav
          have hnot : v ∉ rest.map Prod.fst := hv ▸ h.1
          have hnil : rest.filter (fun tr => tr.1 == v) = [] :=
            List.filter_eq_nil_iff.mpr (fun tr htr hc =>
              hnot (List.mem_map.mpr ⟨tr, htr, eq_of_beq hc⟩))
          simp [hnil, hv]
      | false =>
          have hne : v ≠ a.1 := by
            intro e
            rw [e] at hav
            simp at hav
          simp only [hav, Bool.false_eq_true, if_false]
          rw [ih h.2]
          split_ifs <;> simp_all [List.mem_cons]

/-- The contribution of one left row to the filtered join: all or nothing,
depending on whether its channel id is the one being counted. -/
theorem filter_pair_block (w : ChRow) (cid : Int) (lst : List (Value × Value)) :
    ((lst.map (fun t => (w, t))).filter (fun r => r.1.channel_id == cid)).length =
      if w.channel_id == cid then lst.length else 0 := by
  cases h : (w.channel_id == cid) with
  | true =>
      have hall : ∀ r ∈ lst.map (fun t => (w, t)), (r.1.channel_id == cid) = true := by
        intro r hr
        obtain ⟨t, _, rfl⟩ := List.mem_map.mp hr
        exact h
      rw [List.filter_eq_self.mpr hall, List.length_map]
      simp
  | false =>
      have hnil : (lst.map (fun t => (w, t))).filter (fun r => r.1.channel_id == cid) = [] := by
        refine List.filter_eq_nil_iff.mpr ?_
        intro r hr hc
        obtain ⟨t, _, rfl⟩ := List.mem_map.mp hr
        rw [h] at hc
        exact Bool.false_ne_true hc
      rw [hnil]
      simp

/-- Count of joined rows per channel id, for duplicate-free key lists on both
sides of the join. -/
theorem mergeWires_count (cid : Int) :
    ∀ (wires : List ChRow) (tmp : List (Value × Value)),
      (wires.map ChRow.channel_id).Nodup → (tmp.map Prod.fst).Nodup →
      ((mergeWires wires tmp).filter (fun r => r.1.channel_id == cid)).length =
        if cid ∈ wires.map ChRow.channel_id ∧ Value.int cid ∈ tmp.map Prod.fst
        then 1 else 0 := by
  intro wires
  induction wires with
  | nil => intro tmp _ _; simp [mergeWires]
  | cons w ws ih =>
      intro tmp hw ht
      rw [List.map_cons, List.nodup_cons] at hw
      rw [mergeWires, List.flatMap_cons, List.filter_append, List.length_append]
      have htail := ih tmp hw.2 ht
      rw [mergeWires] at htail
      rw [htail, filter_pair_block]
      cases hwc : (w.channel_id == cid) with
      | true =>
          have hwc' : w.channel_id = cid := eq_of_beq hwc
          subst hwc'
          rw [filter_fst_eq_length (Value.int w.channel_id) tmp ht]
          split_ifs <;> simp_all [List.mem_cons]
      | false =>
          have hne : cid ≠ w.channel_id := by
            intro e
            rw [e] at hwc
            simp at hwc
          have hmem : cid ∈ w.channel_id :: List.map ChRow.channel_id ws ↔
              cid ∈ List.map ChRow.channel_id ws := by
            rw [List.mem_cons]
            simp [hne]
          simp only [Bool.false_eq_true, if_false, Nat.zero_add, List.map_cons, hmem]

/-- C3: in `plot_wire_planes`, the drawn segments of plane `p` come from the
inner join of the TPC-filtered channel map with the plane-`p`-filtered metric
table: a joined row with channel id `cid` exists iff `cid` occurs in both
filtered tables, and the drawn segments are exactly the joined rows' wire
endpoints. -/
theorem wire_join_membership (chmap : List ChRow) (cids mvals planeCol : Column)
    (tpc p cid : Int) :
    ((∃ r ∈ mergeWires (wiresFor chmap tpc) (tmpFrame cids mvals planeCol p),
        r.1.channel_id = cid) ↔
      ((∃ w ∈ wiresFor chmap tpc, w.channel_id = cid) ∧
       (∃ tr ∈ tmpFrame cids mvals planeCol p, tr.1 = Value.int cid))) ∧
    planeSegments (mergeWires (wiresFor chmap tpc) (tmpFrame cids mvals planeCol p)) =
      (mergeWires (wiresFor chmap tpc) (tmpFrame cids mvals planeCol p)).map
        (fun r => ((r.1.z0, r.1.y0), (r.1.z1, r.1.y1))) :=
  ⟨mergeWires_mem (wiresFor chmap tpc) (tmpFrame cids mvals planeCol p) cid, rfl⟩

/-- C4: when each channel id occurs at most once in the channel map and at
most once among the metric rows of plane `p`, the inner join has exactly one
row per channel id present in both filtered tables and none for any other
channel id. -/
theorem wire_join_unique (chmap : List ChRow) (cids mvals planeCol : Column)
    (tpc p : Int)
    (h1 : (chmap.map ChRow.channel_id).Nodup)
    (h2 : ((tmpFrame cids mvals planeCol p).map Prod.fst).Nodup) :
    ∀ cid : Int,
      ((mergeWires (wiresFor chmap tpc) (tmpFrame cids mvals planeCol p)).filter
          (fun r => r.1.channel_id == cid)).length =
        if cid ∈ (wiresFor chmap tpc).map ChRow.channel_id ∧
            Value.int cid ∈ (tmpFrame cids mvals planeCol p).map Prod.fst
        then 1 else 0 := by
  intro cid
  have hw : ((wiresFor chmap tpc).map ChRow.channel_id).Nodup :=
    h1.sublist (List.Sublist.map ChRow.channel_id (List.filter_sublist chmap))
  exact mergeWires_count cid (wiresFor chmap tpc) (tmpFrame cids mvals planeCol p) hw h2

theorem wire_join_unique_witness :
    (([⟨5, Value.int 0, Value.int 0, Value.int 1, Value.int 1⟩,
       ⟨9, Value.int 2, Value.int 2, Value.int 3, Value.int 3⟩] :
        List ChRow).map ChRow.channel_id).Nodup ∧
    ((tmpFrame [Value.int 5, Value.int 7] [Value.int 1, Value.int 2]
        [Value.int 0, Value.int 0] 0).map Prod.fst).Nodup ∧
    ((mergeWires
        (wiresFor [⟨5, Value.int 0, Value.int 0, Value.int 1, Value.int 1⟩,
          ⟨9, Value.int 2, Value.int 2, Value.int 3, Value.int 3⟩] 0)
        (tmpFrame [Value.int 5, Value.int 7] [Value.int 1, Value.int 2]
          [Value.int 0, Value.int 0] 0)).filter
       (fun r => r.1.channel_id == 5)).length =
      if (5 : Int) ∈ (wiresFor [⟨5, Value.int 0, Value.int 0, Value.int 1, Value.int 1⟩,
            ⟨9, Value.int 2, Value.int 2, Value.int 3, Value.int 3⟩] 0).map ChRow.channel_id ∧
          Value.int 5 ∈ (tmpFrame [Value.int 5, Value.int 7] [Value.int 1, Value.int 2]
            [Value.int 0, Value.int 0] 0).map Prod.fst
      then 1 else 0 :=
  ⟨by decide, by decide,
    wire_join_unique
      [⟨5, Value.int 0, Value.int 0, Value.int 1, Value.int 1⟩,
       ⟨9, Value.int 2, Value.int 2, Value.int 3, Value.int 3⟩]
      [Value.int 5, Value.int 7] [Value.int 1, Value.int 2]
      [Value.int 0, Value.int 0] 0 0 (by decide) (by decide) 5⟩

/-! ## Error-propagation lemmas -/

theorem map_eq_error {α : Type u} {β : Type v} (x : Except PyErr α) (f : α → β)
    (e : PyErr) : x.map f = .error e → x = .error e := by
  cases x with
  | error e' => simp [Except.map]
  | ok v => simp [Except.map]

theorem bind_eq_error {α : Type u} {β : Type v} (x : Except PyErr α)
    (g : α → Except PyErr β) (e : PyErr) :
    x.bind g = .error e → x = .error e ∨ ∃ y, x = .ok y ∧ g y = .error e := by
  cases x with
  | error e' => intro h; exact Or.inl (by simpa [Except.bind] using h)
  | ok v => intro h; exact Or.inr ⟨v, rfl, by simpa [Except.bind] using h⟩

theorem getCol_error (d : Dataset) (n : String) (e : PyErr) :
    getCol d n = .error e → e = .keyError n := by
  intro he
  unfold getCol at he
  cases hf : d.cols.find? (fun p => p.1 == n) with
  | some p => rw [hf] at he; simp at he
  | none => rw [hf] at he; simp at he; exact he.symm

theorem valInt_error (v : Value) (e : PyErr) : valInt v = .error e → e = .typeError := by
  cases v <;> simp [valInt] <;> intro h <;> exact h.symm

theorem pyIndex_error {α : Type u} (l : List α) (i : Nat) (e : PyErr) :
    pyIndex l i = .error e → e = .indexError := by
  intro he
  unfold pyIndex at he
  cases hf : l.get? i with
  | some x => rw [hf] at he; simp at he
  | none => rw [hf] at he; simp at he; exact he.symm

theorem mapE_error {α : Type u} {β : Type v} (f : α → Except PyErr β) (e : PyErr) :
    ∀ l : List α, mapE f l = .error e → ∃ x ∈ l, f x = .error e := by
  intro l
  induction l with
  | nil => intro he; simp [mapE] at he
  | cons x xs ih =>
      intro he
      unfold mapE at he
      rcases bind_eq_error _ _ _ he with hx | ⟨y, _, hy⟩
      · exact ⟨x, List.mem_cons_self x xs, hx⟩
      · have := map_eq_error _ _ _ hy
        obtain ⟨x', hx', hfx⟩ := ih this
        exact ⟨x', List.mem_cons_of_mem x hx', hfx⟩

theorem colInt_error (c : Column) (e : PyErr) : colInt c = .error e → e = .typeError := by
  intro he
  obtain ⟨v, _, hv⟩ := mapE_error valInt e c he
  exact valInt_error v e hv

theorem crateX_error (a b : Column) (e : PyErr) : crateX a b = .error e → e = .typeError := by
  intro he
  unfold crateX at he
  rcases bind_eq_error _ _ _ he with hx | ⟨y, _, hy⟩
  · exact colInt_error a e hx
  · exact colInt_error b e (map_eq_error _ _ _ hy)

theorem cratePoints_error (d : Dataset) (c : Value) (metric : String) (e : PyErr) :
    cratePoints d c metric = .error e → primErr e = true := by
  intro he
  unfold cratePoints at he
  rcases bind_eq_error _ _ _ he with h1 | ⟨fl, _, he⟩
  · rw [getCol_error d "flange" e h1]; rfl
  rcases bind_eq_error _ _ _ he with h2 | ⟨board, _, he⟩
  · rw [getCol_error d "board" e h2]; rfl
  rcases bind_eq_error _ _ _ he with h3 | ⟨ch, _, he⟩
  · rw [getCol_error d "ch" e h3]; rfl
  rcases bind_eq_error _ _ _ he with h4 | ⟨xs, _, he⟩
  · rw [crateX_error _ _ e h4]; rfl
  · rw [getCol_error d metric e (map_eq_error _ _ _ he)]; rfl

theorem crateEntry_error (labels : List String) (metric : String) (component : Value)
    (nds : Nat) (de : Nat × Dataset) (e : PyErr) :
    crateEntry labels metric component nds de = .error e → primErr e = true := by
  intro he
  unfold crateEntry at he
  rcases bind_eq_error _ _ _ he with h1 | ⟨pts, _, he⟩
  · exact cratePoints_error _ _ _ e h1
  · rw [pyIndex_error _ _ e (map_eq_error _ _ _ he)]; rfl

theorem crateCore_error (datasets : List Dataset) (labels : List String)
    (metric : String) (component : Value) (e : PyErr) :
    crateCore datasets labels metric component = .error e →
      primErr e = true ∨ (datasets = [] ∧ e = .unboundLocal "title") := by
  intro he
  unfold crateCore at he
  rcases bind_eq_error _ _ _ he with h1 | ⟨entries, _, he⟩
  · obtain ⟨de, _, hde⟩ := mapE_error _ e _ h1
    exact Or.inl (crateEntry_error _ _ _ _ de e hde)
  · have h2 := map_eq_error _ _ _ he
    unfold crateTitleFinal at h2
    by_cases hz : datasets.length = 0
    · rw [if_pos hz] at h2
      simp at h2
      exact Or.inr ⟨List.length_eq_zero.mp hz, h2.symm⟩
    · rw [if_neg hz] at h2
      simp at h2

theorem tpcMask_error (d : Dataset) (tpc : Int) (pi : Nat) (e : PyErr) :
    tpcMask d tpc pi = .error e → primErr e = true := by
  intro he
  unfold tpcMask at he
  rcases bind_eq_error _ _ _ he with h1 | ⟨t, _, he⟩
  · rw [getCol_error d "tpc" e h1]; rfl
  · rw [getCol_error d "plane" e (map_eq_error _ _ _ he)]; rfl

theorem tpcPoints_error (d : Dataset) (metric : String) (tpc : Int) (pi : Nat)
    (e : PyErr) : tpcPoints d metric tpc pi = .error e → primErr e = true := by
  intro he
  unfold tpcPoints at he
  rcases bind_eq_error _ _ _ he with h1 | ⟨mask, _, he⟩
  · exact tpcMask_error d tpc pi e h1
  rcases bind_eq_error _ _ _ he with h2 | ⟨cid, _, he⟩
  · rw [getCol_error d "channel_id" e h2]; rfl
  · rw [getCol_error d metric e (map_eq_error _ _ _ he)]; rfl

theorem tpcHistVals_error (d : Dataset) (metric : String) (tpc : Int) (pi : Nat)
    (e : PyErr) : tpcHistVals d metric tpc pi = .error e → primErr e = true := by
  intro he
  unfold tpcHistVals at he
  rcases bind_eq_error _ _ _ he with h1 | ⟨mask, _, he⟩
  · exact tpcMask_error d tpc pi e h1
  · rw [getCol_error d metric e (map_eq_error _ _ _ he)]; rfl

theorem tpcEntry_error (labels : List String) (metric : String) (tpc : Int) (pi : Nat)
    (de : Nat × Dataset) (e : PyErr) :
    tpcEntry labels metric tpc pi de = .error e → primErr e = true := by
  intro he
  unfold tpcEntry at he
  rcases bind_eq_error _ _ _ he with h1 | ⟨pts, _, he⟩
  · exact tpcPoints_error _ _ _ _ e h1
  rcases bind_eq_error _ _ _ he with h2 | ⟨lab, _, he⟩
  · rw [pyIndex_error _ _ e h2]; rfl
  · exact tpcHistVals_error _ _ _ _ e (map_eq_error _ _ _ he)

theorem tpcCore_error (datasets : List Dataset) (labels : List String) (metric : String)
    (tpc : Int) (e : PyErr) : tpcCore datasets labels metric tpc = .error e →
      primErr e = true := by
  intro he
  obtain ⟨pi, _, hpi⟩ := mapE_error _ e _ he
  obtain ⟨de, _, hde⟩ := mapE_error _ e _ (map_eq_error _ _ _ hpi)
  exact tpcEntry_error _ _ _ _ de e hde

theorem wirePlaneFig_error (data : WireData) (metric : String) (tpc p : Int)
    (e : PyErr) : wirePlaneFig data metric tpc p = .error e → primErr e = true := by
  intro he
  unfold wirePlaneFig at he
  rcases bind_eq_error _ _ _ he with h1 | ⟨cids, _, he⟩
  · rw [getCol_error _ "channel_id" e h1]; rfl
  rcases bind_eq_error _ _ _ he with h2 | ⟨mvals, _, he⟩
  · rw [getCol_error _ metric e h2]; rfl
  · rw [getCol_error _ "plane" e (map_eq_error _ _ _ he)]; rfl

theorem tpcName_error (tpc : Int) (e : PyErr) :
    tpcName tpc = .error e → primErr e = true := by
  intro he
  unfold tpcName at he
  split at he
  · simp at he
  · split at he
    · simp at he
    · split at he
      · simp at he
      · split at he
        · simp at he
        · simp at he; rw [he.symm]; rfl

theorem wireCore_error (data : WireData) (metric metricLabel : String) (tpc : Int)
    (e : PyErr) : wireCore data metric metricLabel tpc = .error e →
      primErr e = true := by
  intro he
  unfold wireCore at he
  rcases bind_eq_error _ _ _ he with h1 | ⟨panels, _, he⟩
  · obtain ⟨p, _, hp⟩ := mapE_error _ e _ h1
    exact wirePlaneFig_error _ _ _ p e hp
  · exact tpcName_error tpc e (map_eq_error _ _ _ he)

theorem waveCore_error (waveform : Column) (title : String) (e : PyErr) :
    waveCore waveform title = .error e → primErr e = true := by
  intro he
  unfold waveCore at he
  split at he
  · simp at he
  · simp at he; rw [he.symm]; rfl

/-! ## Success-shape lemmas for the four calls -/

theorem call_fields {α : Type u} {σ : Type v} {φ : Type w} (core : Except PyErr α)
    (mk : α → PlotEffects σ φ)
    (hA : ∀ x, (mk x).figsAllocated = 1) (hR : ∀ x, (mk x).ret = none)
    (h : exOk (core.map mk) = true) :
    (core.map mk).map (fun r => (r.figsAllocated, r.ret)) = .ok (1, none) := by
  cases core with
  | error e => simp [Except.map, exOk] at h
  | ok x => simp [Except.map, hA, hR]

theorem call_state {α : Type u} {σ : Type v} {φ : Type w} (core : Except PyErr α)
    (mk : α → PlotEffects σ φ) (s : σ)
    (hS : ∀ x, (mk x).stateAfter = s)
    (h : exOk (core.map mk) = true) :
    (core.map mk).map (fun r => r.stateAfter) = .ok s := by
  cases core with
  | error e => simp [Except.map, exOk] at h
  | ok x => simp [Except.map, hS]

/-- C6 counterexample: all four functions are annotated `-> None` and contain
no `return` statement; on a concrete well-formed input, `plot_crate`
allocates its one figure but the modelled Python return value is `none`
(Python `None`), not the allocated figure (id 0), so the call does not
return the figure object to the caller. -/
theorem figure_not_returned_counterexample :
    plotCrateCall
        [⟨[("flange", [Value.str "WW19"]), ("board", [Value.int 1]),
           ("ch", [Value.int 2]), ("rawrms", [Value.int 3])]⟩]
        ["d0"] "rawrms" (Value.str "WW19") =
      .ok { stateAfter := [⟨[("flange", [Value.str "WW19"]), ("board", [Value.int 1]),
              ("ch", [Value.int 2]), ("rawrms", [Value.int 3])]⟩],
            figsAllocated := 1, ret := none,
            fig := { series := [("d0", [(66, Value.int 3)])],
                     title := Value.str "WW19" } } ∧
    (none : Option Nat) ≠ some 0 :=
  ⟨rfl, by decide⟩

/-- C6 (amended): every successful call to each of the four plotting
functions allocates exactly one figure object, and the functions return
`None` — the figure object is not returned to the caller. -/
theorem figure_alloc_and_none_return
    (ds1 : List Dataset) (l1 : List String) (m1 : String) (t1 : Int)
    (ds2 : List Dataset) (l2 : List String) (m2 : String) (comp : Value)
    (wd : WireData) (m3 ml : String) (t3 : Int)
    (wf : Column) (ttl : String) :
    (exOk (plotTpcCall ds1 l1 m1 t1) = true →
      (plotTpcCall ds1 l1 m1 t1).map (fun r => (r.figsAllocated, r.ret)) =
        .ok (1, none)) ∧
    (exOk (plotCrateCall ds2 l2 m2 comp) = true →
      (plotCrateCall ds2 l2 m2 comp).map (fun r => (r.figsAllocated, r.ret)) =
        .ok (1, none)) ∧
    (exOk (plotWirePlanesCall wd m3 ml t3) = true →
      (plotWirePlanesCall wd m3 ml t3).map (fun r => (r.figsAllocated, r.ret)) =
        .ok (1, none)) ∧
    (exOk (plotWaveformCall wf ttl) = true →
      (plotWaveformCall wf ttl).map (fun r => (r.figsAllocated, r.ret)) =
        .ok (1, none)) :=
  ⟨fun h => call_fields (tpcCore ds1 l1 m1 t1) _ (fun _ => rfl) (fun _ => rfl) h,
   fun h => call_fields (crateCore ds2 l2 m2 comp) _ (fun _ => rfl) (fun _ => rfl) h,
   fun h => call_fields (wireCore wd m3 ml t3) _ (fun _ => rfl) (fun _ => rfl) h,
   fun h => call_fields (waveCore wf ttl) _ (fun _ => rfl) (fun _ => rfl) h⟩

theorem figure_alloc_and_none_return_witness :
    ((plotTpcCall [] [] "rawrms" 0).map (fun r => (r.figsAllocated, r.ret)) =
        .ok (1, none)) ∧
    ((plotCrateCall
        [⟨[("flange", [Value.str "WW19"]), ("board", [Value.int 1]),
           ("ch", [Value.int 2]), ("rawrms", [Value.int 3])]⟩]
        ["d0"] "rawrms" (Value.str "WW19")).map
          (fun r => (r.figsAllocated, r.ret)) = .ok (1, none)) ∧
    ((plotWirePlanesCall
        ⟨⟨[("channel_id", [Value.int 5]), ("rawrms", [Value.int 2]),
           ("plane", [Value.int 0])]⟩,
         [⟨5, Value.int 0, Value.int 0, Value.int 1, Value.int 1⟩]⟩
        "rawrms" "RMS [ADC]" 0).map (fun r => (r.figsAllocated, r.ret)) =
      .ok (1, none)) ∧
    ((plotWaveformCall (List.replicate 4096 (Value.int 0)) "t").map
        (fun r => (r.figsAllocated, r.ret)) = .ok (1, none)) := by
  have H := figure_alloc_and_none_return [] [] "rawrms" 0
    [⟨[("flange", [Value.str "WW19"]), ("board", [Value.int 1]),
       ("ch", [Value.int 2]), ("rawrms", [Value.int 3])]⟩] ["d0"] "rawrms"
    (Value.str "WW19")
    ⟨⟨[("channel_id", [Value.int 5]), ("rawrms", [Value.int 2]),
       ("plane", [Value.int 0])]⟩,
     [⟨5, Value.int 0, Value.int 0, Value.int 1, Value.int 1⟩]⟩
    "rawrms" "RMS [ADC]" 0 (List.replicate 4096 (Value.int 0)) "t"
  have hwOk : exOk (plotWaveformCall (List.replicate 4096 (Value.int 0)) "t") = true := by
    unfold plotWaveformCall waveCore
    rw [if_pos (List.length_replicate 4096 (Value.int 0))]
    rfl
  exact ⟨H.1 rfl, H.2.1 rfl, H.2.2.1 rfl, H.2.2.2 hwOk⟩

/-- C7 counterexample: called with an empty dataset list, `plot_crate`
reaches `figure.suptitle(title)` (line 95) with the loop-local `title` never
assigned and raises `UnboundLocalError` — an error of the function's own
making, not an exception of an underlying table, array, or plotting
operation. -/
theorem error_own_making_counterexample :
    plotCrateCall [] [] "rawrms" (Value.str "WW19") =
      .error (.unboundLocal "title") ∧
    primErr (.unboundLocal "title") = false :=
  ⟨rfl, rfl⟩

/-- C7 (amended): none of the four functions catches, wraps, or transforms
any exception — every error a call produces is the underlying primitive's
exception propagated unchanged — except that `plot_crate` called with an
empty dataset list raises its own `UnboundLocalError` for the never-assigned
loop-local `title`. -/
theorem error_propagation
    (ds1 : List Dataset) (l1 : List String) (m1 : String) (t1 : Int)
    (ds2 : List Dataset) (l2 : List String) (m2 : String) (comp : Value)
    (wd : WireData) (m3 ml : String) (t3 : Int)
    (wf : Column) (ttl : String) (e1 e2 e3 e4 : PyErr) :
    (plotTpcCall ds1 l1 m1 t1 = .error e1 → primErr e1 = true) ∧
    (plotCrateCall ds2 l2 m2 comp = .error e2 →
      (primErr e2 = true ∨ (ds2 = [] ∧ e2 = .unboundLocal "title"))) ∧
    (plotWirePlanesCall wd m3 ml t3 = .error e3 → primErr e3 = true) ∧
    (plotWaveformCall wf ttl = .error e4 → primErr e4 = true) :=
  ⟨fun h => tpcCore_error ds1 l1 m1 t1 e1 (map_eq_error _ _ _ h),
   fun h => crateCore_error ds2 l2 m2 comp e2 (map_eq_error _ _ _ h),
   fun h => wireCore_error wd m3 ml t3 e3 (map_eq_error _ _ _ h),
   fun h => waveCore_error wf ttl e4 (map_eq_error _ _ _ h)⟩

theorem error_propagation_witness :
    primErr (.keyError "tpc") = true ∧
    (primErr (.unboundLocal "title") = true ∨
      (([] : List Dataset) = [] ∧
        (PyErr.unboundLocal "title") = .unboundLocal "title")) ∧
    primErr (.keyError "channel_id") = true ∧
    primErr .valueError = true := by
  have H := error_propagation [⟨[]⟩] [] "rawrms" 0 [] [] "rawrms"
    (Value.str "WW19") ⟨⟨[]⟩, []⟩ "rawrms" "RMS [ADC]" 0 [] "t"
    (.keyError "tpc") (.unboundLocal "title") (.keyError "channel_id") .valueError
  exact ⟨H.1 rfl, H.2.1 rfl, H.2.2.1 rfl, H.2.2.2 rfl⟩

/-- C8: each of the four functions only reads its inputs: after a successful
call, the dataset list, the channel-map-bearing input, and the waveform
array are exactly as they were passed in. -/
theorem inputs_unchanged
    (ds1 : List Dataset) (l1 : List String) (m1 : String) (t1 : Int)
    (ds2 : List Dataset) (l2 : List String) (m2 : String) (comp : Value)
    (wd : WireData) (m3 ml : String) (t3 : Int)
    (wf : Column) (ttl : String) :
    (exOk (plotTpcCall ds1 l1 m1 t1) = true →
      (plotTpcCall ds1 l1 m1 t1).map (fun r => r.stateAfter) = .ok ds1) ∧
    (exOk (plotCrateCall ds2 l2 m2 comp) = true →
      (plotCrateCall ds2 l2 m2 comp).map (fun r => r.stateAfter) = .ok ds2) ∧
    (exOk (plotWirePlanesCall wd m3 ml t3) = true →
      (plotWirePlanesCall wd m3 ml t3).map (fun r => r.stateAfter) = .ok wd) ∧
    (exOk (plotWaveformCall wf ttl) = true →
      (plotWaveformCall wf ttl).map (fun r => r.stateAfter) = .ok wf) :=
  ⟨fun h => call_state (tpcCore ds1 l1 m1 t1) _ ds1 (fun _ => rfl) h,
   fun h => call_state (crateCore ds2 l2 m2 comp) _ ds2 (fun _ => rfl) h,
   fun h => call_state (wireCore wd m3 ml t3) _ wd (fun _ => rfl) h,
   fun h => call_state (waveCore wf ttl) _ wf (fun _ => rfl) h⟩

theorem inputs_unchanged_witness :
    ((plotTpcCall [] ["a"] "rawrms" 0).map (fun r => r.stateAfter) = .ok []) ∧
    ((plotCrateCall
        [⟨[("flange", [Value.str "WW19"]), ("board", [Value.int 1]),
           ("ch", [Value.int 2]), ("rawrms", [Value.int 3])]⟩]
        ["d0"] "rawrms" (Value.str "WW19")).map (fun r => r.stateAfter) =
      .ok [⟨[("flange", [Value.str "WW19"]), ("board", [Value.int 1]),
            ("ch", [Value.int 2]), ("rawrms", [Value.int 3])]⟩]) ∧
    ((plotWirePlanesCall
        ⟨⟨[("channel_id", [Value.int 5]), ("rawrms", [Value.int 2]),
           ("plane", [Value.int 0])]⟩,
         [⟨5, Value.int 0, Value.int 0, Value.int 1, Value.int 1⟩]⟩
        "rawrms" "RMS [ADC]" 0).map (fun r => r.stateAfter) =
      .ok ⟨⟨[("channel_id", [Value.int 5]), ("rawrms", [Value.int 2]),
            ("plane", [Value.int 0])]⟩,
           [⟨5, Value.int 0, Value.int 0, Value.int 1, Value.int 1⟩]⟩) ∧
    ((plotWaveformCall (List.replicate 4096 (Value.int 0)) "wf").map
        (fun r => r.stateAfter) = .ok (List.replicate 4096 (Value.int 0))) := by
  have H := inputs_unchanged [] ["a"] "rawrms" 0
    [⟨[("flange", [Value.str "WW19"]), ("board", [Value.int 1]),
       ("ch", [Value.int 2]), ("rawrms", [Value.int 3])]⟩] ["d0"] "rawrms"
    (Value.str "WW19")
    ⟨⟨[("channel_id", [Value.int 5]), ("rawrms", [Value.int 2]),
       ("plane", [Value.int 0])]⟩,
     [⟨5, Value.int 0, Value.int 0, Value.int 1, Value.int 1⟩]⟩
    "rawrms" "RMS [ADC]" 0 (List.replicate 4096 (Value.int 0)) "wf"
  have hwOk : exOk (plotWaveformCall (List.replicate 4096 (Value.int 0)) "wf") = true := by
    unfold plotWaveformCall waveCore
    rw [if_pos (List.length_replicate 4096 (Value.int 0))]
    rfl
  exact ⟨H.1 rfl, H.2.1 rfl, H.2.2.1 rfl, H.2.2.2 hwOk⟩

end ICARUSNoise
